import Mathlib

/-!
Shallow embedding of `src/app/lib/actions.ts` (ACME dashboard server actions).

The file defines the data model (form data, database tables), the Zod form
schemas (`CreateInvoice`, `UpdateInvoice`, `CreateCustomer`) as executable
parsers, and the server actions (`createInvoice`, `updateInvoice`,
`deleteInvoice`, `authenticate`, `createCustomer`, `updateCustomer`) as pure
functions over an explicit database state and an explicit storage-health flag.

Modelling conventions:
* `FormData` is an association list from field names to string values;
  `getField` is `formData.get`, returning `none` for a missing field
  (JavaScript `null`).
* Ambient storage failure (connectivity, constraint violation, ...) that the
  `try/catch` in each action absorbs is modelled by a boolean `dbOk` argument:
  when it is `false` the single SQL statement of the action throws and the
  `catch` branch runs; when it is `true` the statement applies its SQL
  semantics to the database state.
* Values produced by the runtime rather than the form are explicit arguments:
  `genId` stands for the id generated for an inserted row
  (`crypto.randomUUID()` for customers, the database for invoices) and
  `today` for `new Date().toISOString().split('T')[0]`.
* JavaScript numbers coming out of `z.coerce.number()` are modelled as exact
  rationals (`Rat`). The program computes in binary64, whose rounding this
  model does not reproduce: in binary64, `Number` of the string 0.07 times 100
  is 7.000000000000001, not 7, so no theorem below asserts that the computed
  cents value is an integer for a general class of inputs. The concrete
  decimal computations appearing in theorems below (45.00 yielding 4500,
  0.005 yielding 0.5) produce the same persisted value in binary64 as in
  `Rat`.
* `redirect` throws in Next.js, so a successful action never returns: the
  `redirected` result constructor records the control transfer.
-/

set_option autoImplicit false

namespace Acme

/-- Submitted form fields: association list from field name to string value. -/
def FormData := List (String × String)

/-- `formData.get(key)`: first value bound to `key`, `none` when absent. -/
def getField (form : FormData) (key : String) : Option String :=
  match form.find? (fun p => p.1 = key) with
  | some p => some p.2
  | none => none

/-- JavaScript whitespace characters recognised by `String.prototype.trim`
(restricted to the ASCII ones; the claims never submit exotic whitespace). -/
def isJsSpace (c : Char) : Bool :=
  c = ' ' || c = '\t' || c = '\n' || c = '\r' || c = '\x0b' || c = '\x0c'

/-- Drop leading and trailing JavaScript whitespace from a character list. -/
def trimChars (l : List Char) : List Char :=
  ((l.dropWhile isJsSpace).reverse.dropWhile isJsSpace).reverse

/-- `String.prototype.trim` (also what Zod's `.trim()` calls). -/
def jsTrim (s : String) : String :=
  String.mk (trimChars s.toList)

/-- Value of a digit character list read in base 10. -/
def digitsToNat (l : List Char) : Nat :=
  l.foldl (fun a c => 10 * a + (c.toNat - 48)) 0

/-- Parse an unsigned decimal literal (`digits`, `digits.digits`, `.digits`,
`digits.`) to an exact rational; `none` when the characters are not such a
literal (JavaScript `NaN`). Hexadecimal and exponent forms of `Number` are out
of scope: no claim submits them. -/
def parseUnsignedDec (l : List Char) : Option Rat :=
  match l.span (fun c => c.isDigit) with
  | (ip, []) => if ip.isEmpty then none else some (digitsToNat ip)
  | (ip, '.' :: fp) =>
      if fp.all (fun c => c.isDigit) && !(ip.isEmpty && fp.isEmpty) then
        some ((digitsToNat ip : Rat) + (digitsToNat fp : Rat) / (10 ^ fp.length))
      else none
  | _ => none

/-- JavaScript `Number(string)`: trims, maps the empty string to `0`, parses a
signed decimal literal; `none` is `NaN`. -/
def jsNumberOfString (s : String) : Option Rat :=
  match trimChars s.toList with
  | [] => some 0
  | '+' :: rest => parseUnsignedDec rest
  | '-' :: rest => (parseUnsignedDec rest).map (fun q => -q)
  | l => parseUnsignedDec l

/-- JavaScript `Number` applied to a `formData.get` result: `Number(null) = 0`. -/
def jsNumber : Option String → Option Rat
  | none => some 0
  | some s => jsNumberOfString s

/-- Invoice status values admitted by `z.enum(["pending", "paid"])`. -/
inductive Status where
  | pending
  | paid
deriving DecidableEq, Repr

/-- `FormSchema`field `customerId`: `z.string()` with a custom
invalid-type message; `formData.get` returning `null` is an invalid type. -/
def parseCustomerId : Option String → Except (List String) String
  | none => .error ["Please select a customer."]
  | some s => .ok s

/-- `FormSchema` field `amount`: `z.coerce.number().gt(0, ...)`.
Coercion applies JavaScript `Number`; `NaN` is an invalid type, then the
result must be strictly greater than zero. -/
def parseAmount (v : Option String) : Except (List String) Rat :=
  match jsNumber v with
  | none => .error ["Expected number, received nan"]
  | some q => if 0 < q then .ok q else .error ["Please enter an amount greater than $0."]

/-- `FormSchema` field `status`: `z.enum(["pending", "paid"])` with a custom
invalid-type message for `null`; any other string is an invalid enum value
(Zod's default message quotes the expected and received values, which no claim
inspects, so a fixed text stands in for it). -/
def parseStatus : Option String → Except (List String) Status
  | none => .error ["Please select an invoice status."]
  | some s =>
      if s = "pending" then .ok .pending
      else if s = "paid" then .ok .paid
      else .error ["Invalid enum value. Expected pending or paid"]

/-- Typed record produced by a successful `CreateInvoice.safeParse` /
`UpdateInvoice.safeParse` (both are `FormSchema.omit(\x7b id, date \x7d)`). -/
structure InvoiceData where
  customerId : String
  amount : Rat
  status : Status
deriving DecidableEq, Repr

/-- Per-field error lists of `validatedFields.error.flatten().fieldErrors`
for the invoice schema. -/
structure InvoiceFieldErrors where
  customerId : List String
  amount : List String
  status : List String
deriving DecidableEq, Repr

/-- Error list of a field parse result (empty on success). -/
def errsOf {α : Type} : Except (List String) α → List String
  | .ok _ => []
  | .error e => e

/-- `CreateInvoice.safeParse` (and `UpdateInvoice.safeParse`, an identical
schema): parse the three submitted fields independently, succeed when all
three succeed, otherwise collect every field's errors. -/
def CreateInvoice_safeParse (form : FormData) : Except InvoiceFieldErrors InvoiceData :=
  match parseCustomerId (getField form "customerId"),
        parseAmount (getField form "amount"),
        parseStatus (getField form "status") with
  | .ok c, .ok a, .ok s => .ok ⟨c, a, s⟩
  | rc, ra, rs => .error ⟨errsOf rc, errsOf ra, errsOf rs⟩

/-- `UpdateInvoice = FormSchema.omit(\x7b id, date \x7d)`: the same schema as
`CreateInvoice`. -/
def UpdateInvoice_safeParse : FormData → Except InvoiceFieldErrors InvoiceData :=
  CreateInvoice_safeParse

/-- Row of the `invoices` table. The `id` column is generated by the database
on insert. -/
structure InvoiceRow where
  id : String
  customer_id : String
  amount : Rat
  status : Status
  date : String
deriving DecidableEq, Repr

/-- Row of the `customers` table (`id` is its primary key). -/
structure CustomerRow where
  id : String
  name : String
  email : String
deriving DecidableEq, Repr

/-- Database state: the two tables the actions touch. -/
structure Db where
  invoices : List InvoiceRow
  customers : List CustomerRow
deriving DecidableEq, Repr

/-- Return / control-transfer outcome of an invoice or customer action. -/
inductive ActionResult (E : Type) where
  | validationFailed (errors : E) (message : String)
  | dbError (message : String)
  | redirected (path : String)
deriving DecidableEq, Repr

/-- Full observable outcome of an invoice action: its result, the paths passed
to `revalidatePath`, and the database state after the action. -/
structure InvoiceOutcome where
  result : ActionResult InvoiceFieldErrors
  revalidated : List String
  db : Db
deriving DecidableEq, Repr

/-- `createInvoice`: validate, on failure return the field errors; otherwise
insert `(customer_id, amountInCents, status, date)` into `invoices` (the
database generating `genId`), mapping a storage failure to a generic message;
on success revalidate and redirect to the invoices page. -/
def createInvoice (genId today : String) (dbOk : Bool) (db : Db) (form : FormData) :
    InvoiceOutcome :=
  match CreateInvoice_safeParse form with
  | .error e =>
      ⟨.validationFailed e "Missing Fields. Failed to Create Invoice.", [], db⟩
  | .ok d =>
      let amountInCents := d.amount * 100
      if dbOk then
        ⟨.redirected "/dashboard/invoices", ["/dashboard/invoices"],
          { db with invoices :=
              db.invoices ++ [⟨genId, d.customerId, amountInCents, d.status, today⟩] }⟩
      else
        ⟨.dbError "Database Error: Failed to Create Invoice.", [], db⟩

/-- `updateInvoice`: validate, on failure return the field errors; otherwise
run `UPDATE invoices SET customer_id, amount, status WHERE id = id` (a silent
no-op when no row matches), mapping a storage failure to a generic message;
on success revalidate and redirect to the invoices page. -/
def updateInvoice (id : String) (dbOk : Bool) (db : Db) (form : FormData) :
    InvoiceOutcome :=
  match UpdateInvoice_safeParse form with
  | .error e =>
      ⟨.validationFailed e "Missing Fields. Failed to Update Invoice.", [], db⟩
  | .ok d =>
      let amountInCents := d.amount * 100
      if dbOk then
        ⟨.redirected "/dashboard/invoices", ["/dashboard/invoices"],
          { db with invoices := db.invoices.map (fun r =>
              if r.id = id then
                { r with customer_id := d.customerId, amount := amountInCents,
                         status := d.status }
              else r) }⟩
      else
        ⟨.dbError "Database Error: Failed to Update Invoice.", [], db⟩

/-- Observable outcome of `deleteInvoice`: the returned message (if any), the
paths passed to `revalidatePath`, any redirect issued (the source contains no
redirect call, recorded as `none`), and the database state after the action. -/
structure DeleteOutcome where
  message : Option String
  revalidated : List String
  redirect : Option String
  db : Db
deriving DecidableEq, Repr

/-- `deleteInvoice`: `DELETE FROM invoices WHERE id = id` then revalidate the
invoices page, both inside the `try`; a storage failure returns a generic
message without revalidating. No redirect is ever issued. -/
def deleteInvoice (id : String) (dbOk : Bool) (db : Db) : DeleteOutcome :=
  if dbOk then
    ⟨none, ["/dashboard/invoices"], none,
      { db with invoices := db.invoices.filter (fun r => r.id ≠ id) }⟩
  else
    ⟨some "Database Error: Failed to Delete Invoice.", [], none, db⟩

/-- Characters Zod's email pattern allows anywhere in the local part:
letters, digits, underscore, apostrophe, plus, minus, dot. -/
def isLocalChar (c : Char) : Bool :=
  c.isAlphanum || c = '_' || c = Char.ofNat 39 || c = '+' || c = '-' || c = '.'

/-- Characters Zod's email pattern allows as the final local-part character
(as above, with apostrophe and dot excluded). -/
def isLocalEndChar (c : Char) : Bool :=
  c.isAlphanum || c = '_' || c = '+' || c = '-'

/-- Two adjacent dots somewhere in the character list. -/
def hasDoubleDot : List Char → Bool
  | '.' :: '.' :: _ => true
  | _ :: rest => hasDoubleDot rest
  | [] => false

/-- A domain label of Zod's email pattern: nonempty, starts with a letter or
digit, continues with letters, digits or minus. -/
def validLabel (l : List Char) : Bool :=
  match l with
  | [] => false
  | c :: rest => c.isAlphanum && rest.all (fun d => d.isAlphanum || d = '-')

/-- The domain of Zod's email pattern, already split on dots: one or more
labels followed by an alphabetic top-level domain of length at least two. -/
def validDomainParts (parts : List (List Char)) : Bool :=
  match parts with
  | [] => false
  | [_] => false
  | [label, tld] => validLabel label && tld.all Char.isAlpha && 2 ≤ tld.length
  | label :: rest => validLabel label && validDomainParts rest

/-- Split a character list at every occurrence of `sep`. -/
def splitOnChar (sep : Char) (l : List Char) : List (List Char) :=
  match l with
  | [] => [[]]
  | c :: rest =>
      let ps := splitOnChar sep rest
      match ps with
      | [] => if c = sep then [[], []] else [[c]]
      | p :: pss => if c = sep then [] :: p :: pss else (c :: p) :: pss

/-- Zod's `.email()` check (the anchored pattern Zod matches case-insensitively:
no leading dot, no double dot, a local part over `isLocalChar` ending in an
`isLocalEndChar`, one at-sign, then dot-separated domain labels and an
alphabetic top-level domain of length at least two). -/
def zodEmailValid (s : String) : Bool :=
  let l := s.toList
  match splitOnChar '@' l with
  | [localPart, domain] =>
      !localPart.isEmpty &&
      localPart.all isLocalChar &&
      isLocalEndChar (localPart.getLastD ' ') &&
      localPart.headD ' ' ≠ '.' &&
      !hasDoubleDot l &&
      validDomainParts (splitOnChar '.' domain)
  | _ => false

/-- `FormCustomerSchema` field `name`:
`z.string(...).trim().min(3, ...).max(20, ...)`; `null` is an invalid type. -/
def parseName : Option String → Except (List String) String
  | none => .error ["Name must be a string"]
  | some s =>
      let t := jsTrim s
      if t.length < 3 then .error ["Must be 2 or more characters long"]
      else if 20 < t.length then .error ["Must be 20 or fewer characters long"]
      else .ok t

/-- `FormCustomerSchema` field `email`: `z.string(...).trim().email(...)`;
`null` is an invalid type. -/
def parseEmail : Option String → Except (List String) String
  | none => .error ["Email must be a string"]
  | some s =>
      let t := jsTrim s
      if zodEmailValid t then .ok t else .error ["Invalid email address"]

/-- Typed record produced by a successful `CreateCustomer.safeParse` /
`UpdateCustomer.safeParse`. Both schemas are
`FormCustomerSchema.omit(\x7b id, image \x7d)`: the `id` and `image` rules of
`FormCustomerSchema` are dropped, and the actions read only the `name` and
`email` form fields (the `image` read is commented out in the source). -/
structure CustomerData where
  name : String
  email : String
deriving DecidableEq, Repr

/-- Per-field error lists of `error.flatten().fieldErrors` for the customer
schema (only the two validated fields can carry errors). -/
structure CustomerFieldErrors where
  name : List String
  email : List String
deriving DecidableEq, Repr

/-- `CreateCustomer.safeParse` (and `UpdateCustomer.safeParse`, an identical
schema): parse `name` and `email` independently, succeed when both succeed,
otherwise collect both fields' errors. -/
def CreateCustomer_safeParse (form : FormData) : Except CustomerFieldErrors CustomerData :=
  match parseName (getField form "name"), parseEmail (getField form "email") with
  | .ok n, .ok e => .ok ⟨n, e⟩
  | rn, re => .error ⟨errsOf rn, errsOf re⟩

/-- `UpdateCustomer = FormCustomerSchema.omit(\x7b id, image \x7d)`: the same
schema as `CreateCustomer`. -/
def UpdateCustomer_safeParse : FormData → Except CustomerFieldErrors CustomerData :=
  CreateCustomer_safeParse

/-- Full observable outcome of a customer action. -/
structure CustomerOutcome where
  result : ActionResult CustomerFieldErrors
  revalidated : List String
  db : Db
deriving DecidableEq, Repr

/-- `createCustomer`: validate name and email, on failure return the field
errors; otherwise run
`INSERT INTO customers (id, name, email) VALUES ... ON CONFLICT (id) DO NOTHING`
with `genId = crypto.randomUUID()` — a row whose primary key already exists
leaves the table unchanged and raises no error — mapping a storage failure to
a generic message; on success revalidate and redirect to the customers page. -/
def createCustomer (genId : String) (dbOk : Bool) (db : Db) (form : FormData) :
    CustomerOutcome :=
  match CreateCustomer_safeParse form with
  | .error e =>
      ⟨.validationFailed e "Missing Fields. Failed to Add Customer", [], db⟩
  | .ok d =>
      if dbOk then
        ⟨.redirected "/dashboard/customers", ["/dashboard/customers"],
          if db.customers.any (fun r => r.id = genId) then db
          else { db with customers := db.customers ++ [⟨genId, d.name, d.email⟩] }⟩
      else
        ⟨.dbError "Database Error: Failed to Add Customer.", [], db⟩

/-- `updateCustomer`: validate name and email, on failure return the field
errors; otherwise run `UPDATE customers SET name, email WHERE id = id`
(a silent no-op when no row matches), mapping a storage failure to a generic
message (whose text in the source says Invoice, a copy-paste slip); on success
revalidate and redirect to the customers page. -/
def updateCustomer (id : String) (dbOk : Bool) (db : Db) (form : FormData) :
    CustomerOutcome :=
  match UpdateCustomer_safeParse form with
  | .error e =>
      ⟨.validationFailed e "Missing Fields. Failed to Add Customer", [], db⟩
  | .ok d =>
      if dbOk then
        ⟨.redirected "/dashboard/customers", ["/dashboard/customers"],
          { db with customers := db.customers.map (fun r =>
              if r.id = id then { r with name := d.name, email := d.email } else r) }⟩
      else
        ⟨.dbError "Database Error: Failed to Update Invoice.", [], db⟩

/-- What the `signIn('credentials', formData)` call does: succeed, throw an
`AuthError` carrying its `type` tag, or throw some other error. -/
inductive SignInOutcome where
  | success
  | authError (type : String)
  | otherError (err : String)
deriving DecidableEq, Repr

/-- Observable outcome of `authenticate`: run to the end returning nothing,
return a user-facing message, or let an error propagate to the caller. -/
inductive AuthenticateResult where
  | completed
  | message (s : String)
  | thrown (err : String)
deriving DecidableEq, Repr

/-- `authenticate`: delegate to `signIn`; an `AuthError` of type
`CredentialsSignin` becomes the invalid-credentials message, any other
`AuthError` the generic fallback, and a non-`AuthError` is re-thrown. -/
def authenticate : SignInOutcome → AuthenticateResult
  | .success => .completed
  | .authError t =>
      if t = "CredentialsSignin" then .message "Invalid credentials."
      else .message "Something went wrong."
  | .otherError e => .thrown e

/-! ## Theorems about the embedded actions -/

/-- Claim C1: for every invoice creation submission that passes validation
(for instance customerId 123, amount 45.00, status paid), `createInvoice` with
healthy storage appends to the `invoices` table a row carrying the validated
customer id, the validated amount times 100 (4500 for 45.00), the validated
status and today's date, then revalidates `/dashboard/invoices` and redirects
to `/dashboard/invoices`. -/
theorem createInvoice_valid_persists_and_redirects
    (genId today : String) (db : Db) (form : FormData) (d : InvoiceData)
    (h : CreateInvoice_safeParse form = .ok d) :
    createInvoice genId today true db form =
      ⟨.redirected "/dashboard/invoices", ["/dashboard/invoices"],
        { db with invoices :=
            db.invoices ++ [⟨genId, d.customerId, d.amount * 100, d.status, today⟩] }⟩ := by
  simp [createInvoice, h]

/-- Witness for C1: the submission customerId 123, amount 45.00, status paid
validates to amount 45, and the persisted row carries amount 4500. -/
theorem createInvoice_valid_persists_and_redirects_witness :
    CreateInvoice_safeParse [("customerId", "123"), ("amount", "45.00"), ("status", "paid")] =
      .ok ⟨"123", 45, .paid⟩ ∧
    createInvoice "inv-1" "2026-10-11" true ⟨[], []⟩
        [("customerId", "123"), ("amount", "45.00"), ("status", "paid")] =
      ⟨.redirected "/dashboard/invoices", ["/dashboard/invoices"],
        ⟨[⟨"inv-1", "123", 4500, .paid, "2026-10-11"⟩], []⟩⟩ := by
  have hp : CreateInvoice_safeParse
      [("customerId", "123"), ("amount", "45.00"), ("status", "paid")] =
      .ok ⟨"123", 45, .paid⟩ := by
    simp +decide [CreateInvoice_safeParse, parseCustomerId, parseAmount, parseStatus,
      getField, jsNumber, jsNumberOfString, trimChars, parseUnsignedDec, digitsToNat,
      List.span, List.span.loop, List.dropWhile, isJsSpace, List.find?]
  refine ⟨hp, ?_⟩
  rw [createInvoice_valid_persists_and_redirects "inv-1" "2026-10-11" ⟨[], []⟩ _ _ hp]
  norm_num

/-- Claim C2: for every invoice update submission that passes validation, a
storage failure makes `updateInvoice` return exactly the message
`Database Error: Failed to Update Invoice.`, with no path revalidated and no
redirect issued. -/
theorem updateInvoice_dbFailure_returns_message
    (id : String) (db : Db) (form : FormData) (d : InvoiceData)
    (h : UpdateInvoice_safeParse form = .ok d) :
    updateInvoice id false db form =
      ⟨.dbError "Database Error: Failed to Update Invoice.", [], db⟩ := by
  simp [updateInvoice, h]

/-- Witness for C2: a concrete valid submission hits the storage-failure
branch and yields exactly the database-error message. -/
theorem updateInvoice_dbFailure_returns_message_witness :
    UpdateInvoice_safeParse [("customerId", "123"), ("amount", "45.00"), ("status", "paid")] =
      .ok ⟨"123", 45, .paid⟩ ∧
    updateInvoice "inv-9" false ⟨[], []⟩
        [("customerId", "123"), ("amount", "45.00"), ("status", "paid")] =
      ⟨.dbError "Database Error: Failed to Update Invoice.", [], ⟨[], []⟩⟩ := by
  have hp : UpdateInvoice_safeParse
      [("customerId", "123"), ("amount", "45.00"), ("status", "paid")] =
      .ok ⟨"123", 45, .paid⟩ := by
    simp +decide [UpdateInvoice_safeParse, CreateInvoice_safeParse, parseCustomerId,
      parseAmount, parseStatus, getField, jsNumber, jsNumberOfString, trimChars,
      parseUnsignedDec, digitsToNat, List.span, List.span.loop, List.dropWhile,
      isJsSpace, List.find?]
  exact ⟨hp, updateInvoice_dbFailure_returns_message "inv-9" ⟨[], []⟩ _ _ hp⟩

/-- Claim C7: `authenticate` returns `Invalid credentials.` for an `AuthError`
of type `CredentialsSignin`, the generic `Something went wrong.` for an
`AuthError` of any other type, and re-throws any thrown value that is not an
`AuthError`. -/
theorem authenticate_error_classification
    (t e : String) (hne : t ≠ "CredentialsSignin") :
    authenticate (.authError "CredentialsSignin") = .message "Invalid credentials." ∧
    authenticate (.authError t) = .message "Something went wrong." ∧
    authenticate (.otherError e) = .thrown e := by
  refine ⟨rfl, ?_, rfl⟩
  simp [authenticate, hne]

/-- Witness for C7: the three branches at the concrete error types
`CredentialsSignin`, `AccessDenied` and a non-auth error. -/
theorem authenticate_error_classification_witness :
    authenticate (.authError "CredentialsSignin") = .message "Invalid credentials." ∧
    authenticate (.authError "AccessDenied") = .message "Something went wrong." ∧
    authenticate (.otherError "TypeError: x is not a function") =
      .thrown "TypeError: x is not a function" :=
  authenticate_error_classification "AccessDenied" "TypeError: x is not a function"
    (by decide)

/-- Claim C10: `deleteInvoice` never issues a redirect; with healthy storage it
removes the matching rows, revalidates `/dashboard/invoices` and returns no
message, and on a storage failure it returns exactly
`Database Error: Failed to Delete Invoice.` with no path revalidated and the
database untouched. -/
theorem deleteInvoice_no_redirect_invalidates_iff_success (id : String) (db : Db) :
    (∀ dbOk, (deleteInvoice id dbOk db).redirect = none) ∧
    deleteInvoice id true db =
      ⟨none, ["/dashboard/invoices"], none,
        { db with invoices := db.invoices.filter (fun r => r.id ≠ id) }⟩ ∧
    deleteInvoice id false db =
      ⟨some "Database Error: Failed to Delete Invoice.", [], none, db⟩ := by
  refine ⟨fun dbOk => ?_, rfl, rfl⟩
  cases dbOk <;> rfl

/-- Claim C3: for every invoice submission whose amount field coerces to a
number at most 0, validation fails with a nonempty error list on the amount
field, and neither `createInvoice` nor `updateInvoice` touches the database,
revalidates a path or redirects, whatever the storage health. -/
theorem invoice_nonpositive_amount_rejected (form : FormData) (q : Rat)
    (hq : jsNumber (getField form "amount") = some q) (hle : q ≤ 0) :
    ∃ e : InvoiceFieldErrors, CreateInvoice_safeParse form = .error e ∧ e.amount ≠ [] ∧
      (∀ genId today dbOk db, createInvoice genId today dbOk db form =
        ⟨.validationFailed e "Missing Fields. Failed to Create Invoice.", [], db⟩) ∧
      (∀ id dbOk db, updateInvoice id dbOk db form =
        ⟨.validationFailed e "Missing Fields. Failed to Update Invoice.", [], db⟩) := by
  have ha : parseAmount (getField form "amount") =
      .error ["Please enter an amount greater than $0."] := by
    simp [parseAmount, hq, not_lt.mpr hle]
  have key : ∀ e : InvoiceFieldErrors, CreateInvoice_safeParse form = .error e →
      (∀ genId today dbOk db, createInvoice genId today dbOk db form =
        ⟨.validationFailed e "Missing Fields. Failed to Create Invoice.", [], db⟩) ∧
      (∀ id dbOk db, updateInvoice id dbOk db form =
        ⟨.validationFailed e "Missing Fields. Failed to Update Invoice.", [], db⟩) := by
    intro e he
    constructor
    · intro genId today dbOk db
      simp [createInvoice, he]
    · intro id dbOk db
      simp [updateInvoice, UpdateInvoice_safeParse, he]
  cases hc : parseCustomerId (getField form "customerId") with
  | error c =>
    cases hs : parseStatus (getField form "status") with
    | error s =>
      have hp : CreateInvoice_safeParse form =
          .error ⟨c, ["Please enter an amount greater than $0."], s⟩ := by
        simp [CreateInvoice_safeParse, hc, ha, hs, errsOf]
      exact ⟨_, hp, by simp, (key _ hp).1, (key _ hp).2⟩
    | ok s =>
      have hp : CreateInvoice_safeParse form =
          .error ⟨c, ["Please enter an amount greater than $0."], []⟩ := by
        simp [CreateInvoice_safeParse, hc, ha, hs, errsOf]
      exact ⟨_, hp, by simp, (key _ hp).1, (key _ hp).2⟩
  | ok c =>
    cases hs : parseStatus (getField form "status") with
    | error s =>
      have hp : CreateInvoice_safeParse form =
          .error ⟨[], ["Please enter an amount greater than $0."], s⟩ := by
        simp [CreateInvoice_safeParse, hc, ha, hs, errsOf]
      exact ⟨_, hp, by simp, (key _ hp).1, (key _ hp).2⟩
    | ok s =>
      have hp : CreateInvoice_safeParse form =
          .error ⟨[], ["Please enter an amount greater than $0."], []⟩ := by
        simp [CreateInvoice_safeParse, hc, ha, hs, errsOf]
      exact ⟨_, hp, by simp, (key _ hp).1, (key _ hp).2⟩

/-- Witness for C3: a submission whose amount field reads 0 coerces to the
number 0 and is rejected on the amount field without any database effect. -/
theorem invoice_nonpositive_amount_rejected_witness :
    jsNumber (getField [("customerId", "123"), ("amount", "0"), ("status", "paid")] "amount") =
      some 0 ∧
    ((0 : Rat) ≤ 0) ∧
    (∃ e : InvoiceFieldErrors,
      CreateInvoice_safeParse [("customerId", "123"), ("amount", "0"), ("status", "paid")] =
        .error e ∧ e.amount ≠ [] ∧
      (∀ genId today dbOk db,
        createInvoice genId today dbOk db
            [("customerId", "123"), ("amount", "0"), ("status", "paid")] =
          ⟨.validationFailed e "Missing Fields. Failed to Create Invoice.", [], db⟩) ∧
      (∀ id dbOk db,
        updateInvoice id dbOk db
            [("customerId", "123"), ("amount", "0"), ("status", "paid")] =
          ⟨.validationFailed e "Missing Fields. Failed to Update Invoice.", [], db⟩)) := by
  have h1 : jsNumber
      (getField [("customerId", "123"), ("amount", "0"), ("status", "paid")] "amount") =
      some 0 := by
    simp +decide [getField, jsNumber, jsNumberOfString, trimChars, parseUnsignedDec,
      digitsToNat, List.span, List.span.loop, List.dropWhile, isJsSpace, List.find?]
  exact ⟨h1, le_refl 0, invoice_nonpositive_amount_rejected _ 0 h1 (le_refl 0)⟩

/-- Helper: a name-field parse failure makes the whole customer validation
fail and puts exactly that error list on the name field. -/
theorem customerParse_name_error (form : FormData) (l : List String)
    (h : parseName (getField form "name") = .error l) :
    ∃ e : CustomerFieldErrors, CreateCustomer_safeParse form = .error e ∧ e.name = l := by
  cases he : parseEmail (getField form "email") with
  | error m => exact ⟨⟨l, m⟩, by simp [CreateCustomer_safeParse, h, he, errsOf], rfl⟩
  | ok m => exact ⟨⟨l, []⟩, by simp [CreateCustomer_safeParse, h, he, errsOf], rfl⟩

/-- Helper: an email-field parse failure makes the whole customer validation
fail and puts exactly that error list on the email field. -/
theorem customerParse_email_error (form : FormData) (l : List String)
    (h : parseEmail (getField form "email") = .error l) :
    ∃ e : CustomerFieldErrors, CreateCustomer_safeParse form = .error e ∧ e.email = l := by
  cases hn : parseName (getField form "name") with
  | error m => exact ⟨⟨m, l⟩, by simp [CreateCustomer_safeParse, h, hn, errsOf], rfl⟩
  | ok m => exact ⟨⟨[], l⟩, by simp [CreateCustomer_safeParse, h, hn, errsOf], rfl⟩

/-- Claim C4: for every customer submission, a submitted name whose trimmed
length is below 3 or above 20 makes validation fail with an error on the name
field, and a submitted email whose trimmed value does not match the email
pattern makes validation fail with an error on the email field; in both cases
`createCustomer` returns the field errors and leaves the database untouched. -/
theorem customer_invalid_name_or_email_rejected (form : FormData) (s t : String) :
    (getField form "name" = some s →
      ((jsTrim s).length < 3 ∨ 20 < (jsTrim s).length) →
      ∃ e : CustomerFieldErrors, CreateCustomer_safeParse form = .error e ∧ e.name ≠ [] ∧
        ∀ genId dbOk db, createCustomer genId dbOk db form =
          ⟨.validationFailed e "Missing Fields. Failed to Add Customer", [], db⟩) ∧
    (getField form "email" = some t → zodEmailValid (jsTrim t) = false →
      ∃ e : CustomerFieldErrors, CreateCustomer_safeParse form = .error e ∧ e.email ≠ [] ∧
        ∀ genId dbOk db, createCustomer genId dbOk db form =
          ⟨.validationFailed e "Missing Fields. Failed to Add Customer", [], db⟩) := by
  have key : ∀ e : CustomerFieldErrors, CreateCustomer_safeParse form = .error e →
      ∀ genId dbOk db, createCustomer genId dbOk db form =
        ⟨.validationFailed e "Missing Fields. Failed to Add Customer", [], db⟩ := by
    intro e he genId dbOk db
    simp [createCustomer, he]
  constructor
  · intro hn hlen
    have hname : ∃ l, parseName (getField form "name") = .error l ∧ l ≠ [] := by
      rcases hlen with hl | hl
      · exact ⟨["Must be 2 or more characters long"],
          by simp [parseName, hn, hl], by simp⟩
      · have h3 : ¬ (jsTrim s).length < 3 := by omega
        exact ⟨["Must be 20 or fewer characters long"],
          by simp [parseName, hn, h3, hl], by simp⟩
    obtain ⟨l, hl2, hlne⟩ := hname
    obtain ⟨e, he, hen⟩ := customerParse_name_error form l hl2
    exact ⟨e, he, by rw [hen]; exact hlne, key e he⟩
  · intro ht hv
    have hemail : parseEmail (getField form "email") = .error ["Invalid email address"] := by
      simp [parseEmail, ht, hv]
    obtain ⟨e, he, hee⟩ := customerParse_email_error form _ hemail
    exact ⟨e, he, by rw [hee]; simp, key e he⟩

/-- Witness for C4: a name whose trimmed length is 2 is rejected on the name
field, and a malformed email is rejected on the email field. -/
theorem customer_invalid_name_or_email_rejected_witness :
    (getField [("name", " Al "), ("email", "alice@example.com")] "name" = some " Al " ∧
      ((jsTrim " Al ").length < 3 ∨ 20 < (jsTrim " Al ").length) ∧
      (∃ e : CustomerFieldErrors,
        CreateCustomer_safeParse [("name", " Al "), ("email", "alice@example.com")] =
          .error e ∧ e.name ≠ [] ∧
        ∀ genId dbOk db,
          createCustomer genId dbOk db [("name", " Al "), ("email", "alice@example.com")] =
            ⟨.validationFailed e "Missing Fields. Failed to Add Customer", [], db⟩)) ∧
    (getField [("name", "Alice"), ("email", "not-an-email")] "email" = some "not-an-email" ∧
      zodEmailValid (jsTrim "not-an-email") = false ∧
      (∃ e : CustomerFieldErrors,
        CreateCustomer_safeParse [("name", "Alice"), ("email", "not-an-email")] =
          .error e ∧ e.email ≠ [] ∧
        ∀ genId dbOk db,
          createCustomer genId dbOk db [("name", "Alice"), ("email", "not-an-email")] =
            ⟨.validationFailed e "Missing Fields. Failed to Add Customer", [], db⟩)) := by
  constructor
  · exact ⟨rfl, by decide,
      (customer_invalid_name_or_email_rejected
        [("name", " Al "), ("email", "alice@example.com")] " Al " "").1 rfl (by decide)⟩
  · exact ⟨rfl, by decide,
      (customer_invalid_name_or_email_rejected
        [("name", "Alice"), ("email", "not-an-email")] "" "not-an-email").2 rfl (by decide)⟩

/-- Claim C5: with healthy storage, a valid customer creation whose generated
identifier collides with an existing primary key leaves the store unchanged
and raises no error (the action still revalidates and redirects normally),
while invoice creation has no conflict clause: it always appends its row. -/
theorem createCustomer_conflict_noop_invoice_appends
    (genId : String) (db : Db) (form : FormData) (d : CustomerData)
    (hparse : CreateCustomer_safeParse form = .ok d)
    (hcoll : db.customers.any (fun r => r.id = genId) = true) :
    createCustomer genId true db form =
      ⟨.redirected "/dashboard/customers", ["/dashboard/customers"], db⟩ ∧
    (∀ genI today db2 form2 (d2 : InvoiceData), CreateInvoice_safeParse form2 = .ok d2 →
      (createInvoice genI today true db2 form2).db.invoices =
        db2.invoices ++ [⟨genI, d2.customerId, d2.amount * 100, d2.status, today⟩]) := by
  constructor
  · simp [createCustomer, hparse, hcoll]
  · intro genI today db2 form2 d2 h2
    simp [createInvoice, h2]

/-- Witness for C5: inserting Alice under an id already held by Bob leaves the
customers table unchanged and still redirects. -/
theorem createCustomer_conflict_noop_invoice_appends_witness :
    CreateCustomer_safeParse [("name", "Alice"), ("email", "alice@example.com")] =
      .ok ⟨"Alice", "alice@example.com"⟩ ∧
    ([⟨"u1", "Bob", "bob@example.com"⟩] : List CustomerRow).any (fun r => r.id = "u1") = true ∧
    createCustomer "u1" true ⟨[], [⟨"u1", "Bob", "bob@example.com"⟩]⟩
        [("name", "Alice"), ("email", "alice@example.com")] =
      ⟨.redirected "/dashboard/customers", ["/dashboard/customers"],
        ⟨[], [⟨"u1", "Bob", "bob@example.com"⟩]⟩⟩ := by
  have hp : CreateCustomer_safeParse [("name", "Alice"), ("email", "alice@example.com")] =
      .ok ⟨"Alice", "alice@example.com"⟩ := rfl
  have hc : ([⟨"u1", "Bob", "bob@example.com"⟩] : List CustomerRow).any
      (fun r => r.id = "u1") = true := rfl
  exact ⟨hp, hc,
    (createCustomer_conflict_noop_invoice_appends "u1"
      ⟨[], [⟨"u1", "Bob", "bob@example.com"⟩]⟩ _ _ hp hc).1⟩

/-- Claim C6: with healthy storage, deleting an identifier that matches no
stored invoice returns no error message, still revalidates the invoices page,
and leaves the database unchanged. -/
theorem deleteInvoice_nonexistent_id_succeeds (id : String) (db : Db)
    (h : ∀ r ∈ db.invoices, r.id ≠ id) :
    deleteInvoice id true db = ⟨none, ["/dashboard/invoices"], none, db⟩ := by
  have hf : db.invoices.filter (fun r => r.id ≠ id) = db.invoices :=
    List.filter_eq_self.mpr (fun r hr => by simpa using h r hr)
  unfold deleteInvoice
  rw [if_pos rfl, hf]

/-- Witness for C6: deleting the id missing from a one-invoice table succeeds
and revalidates. -/
theorem deleteInvoice_nonexistent_id_succeeds_witness :
    (∀ r ∈ ([⟨"inv-1", "123", 4500, .paid, "2026-10-11"⟩] : List InvoiceRow),
      r.id ≠ "missing") ∧
    deleteInvoice "missing" true ⟨[⟨"inv-1", "123", 4500, .paid, "2026-10-11"⟩], []⟩ =
      ⟨none, ["/dashboard/invoices"], none,
        ⟨[⟨"inv-1", "123", 4500, .paid, "2026-10-11"⟩], []⟩⟩ := by
  have h : ∀ r ∈ ([⟨"inv-1", "123", 4500, .paid, "2026-10-11"⟩] : List InvoiceRow),
      r.id ≠ "missing" := by simp
  exact ⟨h, deleteInvoice_nonexistent_id_succeeds "missing" _ h⟩

/-- Counterexample to claim C8 as stated: the submission amount 0.005 passes
validation (0.005 is greater than 0) and `createInvoice` persists the amount
it computes, 0.005 times 100 = 1/2, whose reduced denominator is 2: the
persisted amount-in-cents is not an integer. -/
theorem createInvoice_fractional_cents_cex :
    CreateInvoice_safeParse [("customerId", "c1"), ("amount", "0.005"), ("status", "paid")] =
      .ok ⟨"c1", 1/200, .paid⟩ ∧
    (createInvoice "inv-1" "2026-10-11" true ⟨[], []⟩
        [("customerId", "c1"), ("amount", "0.005"), ("status", "paid")]).db.invoices =
      [⟨"inv-1", "c1", 1/2, .paid, "2026-10-11"⟩] ∧
    ((1 : Rat)/2).den ≠ 1 := by
  have hp : CreateInvoice_safeParse
      [("customerId", "c1"), ("amount", "0.005"), ("status", "paid")] =
      .ok ⟨"c1", 1/200, .paid⟩ := by
    simp +decide [CreateInvoice_safeParse, parseCustomerId, parseAmount, parseStatus,
      getField, jsNumber, jsNumberOfString, trimChars, parseUnsignedDec, digitsToNat,
      List.span, List.span.loop, List.dropWhile, isJsSpace, List.find?]
    norm_num
  refine ⟨hp, ?_, by norm_num⟩
  simp [createInvoice, hp]
  norm_num

/-- Claim C8 as amended: the amount-in-cents that `createInvoice` and
`updateInvoice` compute and persist (the validated amount times 100, with no
rounding to a whole number of cents) is not an integer for every validated
amount: the submission amount 0.005 passes validation and yields the
non-integer 0.5. -/
theorem invoice_cents_not_always_integer :
    ¬ (∀ (form : FormData) (d : InvoiceData),
        CreateInvoice_safeParse form = .ok d → (d.amount * 100).den = 1) ∧
    ¬ (∀ (form : FormData) (d : InvoiceData),
        UpdateInvoice_safeParse form = .ok d → (d.amount * 100).den = 1) := by
  have hp : CreateInvoice_safeParse
      [("customerId", "c1"), ("amount", "0.005"), ("status", "paid")] =
      .ok ⟨"c1", 1/200, .paid⟩ := by
    simp +decide [CreateInvoice_safeParse, parseCustomerId, parseAmount, parseStatus,
      getField, jsNumber, jsNumberOfString, trimChars, parseUnsignedDec, digitsToNat,
      List.span, List.span.loop, List.dropWhile, isJsSpace, List.find?]
    norm_num
  have hp2 : UpdateInvoice_safeParse
      [("customerId", "c1"), ("amount", "0.005"), ("status", "paid")] =
      .ok ⟨"c1", 1/200, .paid⟩ := hp
  constructor
  · intro hall
    have hd := hall _ _ hp
    norm_num at hd
  · intro hall
    have hd := hall _ _ hp2
    norm_num at hd

/-- Counterexample to claim C9 as stated: a customer submission whose image
value is not a URL passes validation and completes normally, because both
customer actions omit the image field from their schema: validation never
reports an image error. -/
theorem createCustomer_accepts_invalid_image_cex :
    CreateCustomer_safeParse
        [("name", "Alice"), ("email", "alice@example.com"), ("image", "### not a url ###")] =
      .ok ⟨"Alice", "alice@example.com"⟩ ∧
    createCustomer "u1" true ⟨[], []⟩
        [("name", "Alice"), ("email", "alice@example.com"), ("image", "### not a url ###")] =
      ⟨.redirected "/dashboard/customers", ["/dashboard/customers"],
        ⟨[], [⟨"u1", "Alice", "alice@example.com"⟩]⟩⟩ :=
  ⟨rfl, rfl⟩

/-- Claim C9 as amended: although `FormCustomerSchema` declares a URL-format
rule for the image field, `createCustomer` validates through
`FormCustomerSchema.omit` dropping id and image and never reads the image
field, so its outcome is identical on any two submissions that agree on name
and email, whatever their image values. -/
theorem createCustomer_ignores_image_field
    (genId : String) (dbOk : Bool) (db : Db) (f g : FormData)
    (hn : getField f "name" = getField g "name")
    (he : getField f "email" = getField g "email") :
    createCustomer genId dbOk db f = createCustomer genId dbOk db g := by
  unfold createCustomer CreateCustomer_safeParse
  rw [hn, he]

/-- Witness for the amended C9: adding a malformed image value to a submission
changes nothing in the outcome of `createCustomer`. -/
theorem createCustomer_ignores_image_field_witness :
    getField [("name", "Alice"), ("email", "alice@example.com"),
        ("image", "### not a url ###")] "name" =
      getField [("name", "Alice"), ("email", "alice@example.com")] "name" ∧
    createCustomer "u1" true ⟨[], []⟩
        [("name", "Alice"), ("email", "alice@example.com"), ("image", "### not a url ###")] =
      createCustomer "u1" true ⟨[], []⟩ [("name", "Alice"), ("email", "alice@example.com")] :=
  ⟨rfl, createCustomer_ignores_image_field "u1" true ⟨[], []⟩ _ _ rfl rfl⟩

end Acme
